import Mathlib

/-!
Verification of the llm-observability chatbot demos.

Shallow embedding of the four chatbot implementations
(demo/langfuse/chatbot-langfuse.py, demo/opik/chatbot-opik.py,
demo/langtrace/chatbot-langtrace.py,
demo/openllmetry/chatbot-openllmetry-ollama.py).

Modelling conventions:
- The Ollama backend is an opaque capability: a function from the message
  list it is invoked with to either a response (content plus optional token
  counts, mirroring `response.get(key, 0)` on the Python dict) or a raised
  exception (type name and message). Streaming backends are modelled as the
  sequence of chunk contents, which either terminates normally or raises
  after a prefix of chunks; consumer abandonment is a third termination mode.
- Wall-clock durations are abstracted as a parameter (the claims never
  depend on the arithmetic of `time.time()`).
- Metric updates (counter.add / histogram.record) are recorded as an ordered
  list of emitted events, so that the number of increments, not only the
  accumulated value, is observable.
- A Python function call is embedded as a pure function returning a turn
  record: the functional outcome (normal return vs raised exception), the
  conversation history after the call, the message list the backend was
  invoked with, and the emitted metric events.
-/

namespace LLMObs

/-- Message role, from the "role" field used by every implementation. -/
inductive Role where
  | user
  | assistant
deriving DecidableEq

/-- One conversation entry: the dict `{"role": ..., "content": ...}`. -/
structure Message where
  role : Role
  content : String
deriving DecidableEq

/-- Shorthand for the dict `{"role": "user", "content": s}`. -/
def userMsg (s : String) : Message :=
  { role := Role.user, content := s }

/-- Shorthand for the dict `{"role": "assistant", "content": s}`. -/
def assistantMsg (s : String) : Message :=
  { role := Role.assistant, content := s }

/-- Ollama non-streaming chat response: `response["message"]["content"]`
plus the optional token-count fields read via
`response.get("prompt_eval_count", 0)` and `response.get("eval_count", 0)`.
`none` models an absent key. -/
structure OllamaResponse where
  content : String
  prompt_eval_count : Option Nat
  eval_count : Option Nat
deriving DecidableEq

/-- Outcome of one non-streaming backend invocation: a response, or a raised
exception with its Python type name and message. -/
inductive BackendResult where
  | success (resp : OllamaResponse)
  | failure (errType : String) (errMsg : String)
deriving DecidableEq

/-- Functional outcome of a Python call: a normal return or a raised
exception (type name and message). -/
inductive PyOutcome (α : Type) where
  | ok (val : α)
  | raised (errType : String) (errMsg : String)
deriving DecidableEq

/-- One emitted metric update. `request` and `token` and `error` model
`Counter.add(amount, labels)` on the respective counter; `latency` models
`Histogram.record(duration_ms, labels)`. -/
inductive MetricEvent where
  | request (model : String) (status : String) (amount : Nat)
  | token (model : String) (ttype : String) (amount : Nat)
  | latency (model : String) (durationMs : Nat)
  | error (model : String) (errType : String) (amount : Nat)
deriving DecidableEq

/-- Number of request-counter increments with the given status label. -/
def countRequestWith (evs : List MetricEvent) (status : String) : Nat :=
  (evs.filter fun e =>
    match e with
    | MetricEvent.request _ s _ => s == status
    | _ => false).length

/-- Number of request-counter increments, any status label. -/
def countRequest (evs : List MetricEvent) : Nat :=
  (evs.filter fun e =>
    match e with
    | MetricEvent.request _ _ _ => true
    | _ => false).length

/-- Number of token-counter increments with the given type label. -/
def countTokenWith (evs : List MetricEvent) (ttype : String) : Nat :=
  (evs.filter fun e =>
    match e with
    | MetricEvent.token _ t _ => t == ttype
    | _ => false).length

/-- Number of token-counter increments, any type label. -/
def countToken (evs : List MetricEvent) : Nat :=
  (evs.filter fun e =>
    match e with
    | MetricEvent.token _ _ _ => true
    | _ => false).length

/-- Number of latency-histogram observations. -/
def countLatency (evs : List MetricEvent) : Nat :=
  (evs.filter fun e =>
    match e with
    | MetricEvent.latency _ _ => true
    | _ => false).length

/-- Number of error-counter increments. -/
def countError (evs : List MetricEvent) : Nat :=
  (evs.filter fun e =>
    match e with
    | MetricEvent.error _ _ _ => true
    | _ => false).length

/-- Metadata dict of the value returned by ObservableChatbot.chat /
OpikObservableChatbot.chat (session id and model omitted: they are copied
from the arguments unchanged). -/
structure ChatMetadata where
  duration_ms : Nat
  total_tokens : Nat
  prompt_tokens : Nat
  completion_tokens : Nat
deriving DecidableEq

/-- Value returned by ObservableChatbot.chat / OpikObservableChatbot.chat. -/
structure ChatResult where
  response : String
  metadata : ChatMetadata
deriving DecidableEq

/-- Record of one chat turn of the langfuse/opik chatbots: functional
outcome, conversation history after the call, the message list the backend
was invoked with, the metric events emitted during the turn in order, the
`llm.status` span attribute set on the turn span, and how many times
`span.record_exception` ran on the turn span. -/
structure TurnTrace where
  outcome : PyOutcome ChatResult
  history : List Message
  backendMessages : List Message
  events : List MetricEvent
  llm_status : String
  spanExceptionCount : Nat
deriving DecidableEq

/-- Chatbot state: the mutable `conversation_history` field of the chatbot
object together with the process-wide metric event log. -/
structure ChatbotState where
  conversation_history : List Message
  metricLog : List MetricEvent
deriving DecidableEq

namespace Langfuse

/-- Value returned by ObservableChatbot._call_ollama
(demo/langfuse/chatbot-langfuse.py, lines 240-268): token counts extracted
with `response.get("prompt_eval_count", 0)` / `response.get("eval_count", 0)`
and their sum. -/
structure CallOllamaResult where
  content : String
  total_tokens : Nat
  prompt_eval_count : Nat
  eval_count : Nat
deriving DecidableEq

/-- Embeds the success path of ObservableChatbot._call_ollama
(demo/langfuse/chatbot-langfuse.py, lines 250-268). -/
def call_ollama_result (resp : OllamaResponse) : CallOllamaResult :=
  { content := resp.content
    total_tokens := resp.prompt_eval_count.getD 0 + resp.eval_count.getD 0
    prompt_eval_count := resp.prompt_eval_count.getD 0
    eval_count := resp.eval_count.getD 0 }

/-- Embeds ObservableChatbot.chat (demo/langfuse/chatbot-langfuse.py,
lines 156-237) together with the _call_ollama it invokes. The user message
is appended to the history first; the backend is then invoked with the full
history; on success the assistant message is appended and the success
metrics are emitted (the prompt/completion token increments happen inside
_call_ollama, before the request/total/latency updates in chat); on failure
the error metrics are emitted, the exception is recorded on the span and
re-raised — the appended user message stays in the history. -/
def chat (model : String) (backend : List Message → BackendResult)
    (durationMs : Nat) (history : List Message) (user_message : String) :
    TurnTrace :=
  match backend (history ++ [userMsg user_message]) with
  | BackendResult.success resp =>
      { outcome := PyOutcome.ok
          { response := (call_ollama_result resp).content
            metadata :=
              { duration_ms := durationMs
                total_tokens := (call_ollama_result resp).total_tokens
                prompt_tokens := (call_ollama_result resp).prompt_eval_count
                completion_tokens := (call_ollama_result resp).eval_count } }
        history := history ++ [userMsg user_message,
          assistantMsg (call_ollama_result resp).content]
        backendMessages := history ++ [userMsg user_message]
        events :=
          [MetricEvent.token model "prompt" (call_ollama_result resp).prompt_eval_count,
           MetricEvent.token model "completion" (call_ollama_result resp).eval_count,
           MetricEvent.request model "success" 1,
           MetricEvent.token model "total" (call_ollama_result resp).total_tokens,
           MetricEvent.latency model durationMs]
        llm_status := "success"
        spanExceptionCount := 0 }
  | BackendResult.failure etype emsg =>
      { outcome := PyOutcome.raised etype emsg
        history := history ++ [userMsg user_message]
        backendMessages := history ++ [userMsg user_message]
        events :=
          [MetricEvent.error model etype 1,
           MetricEvent.request model "error" 1]
        llm_status := "error"
        spanExceptionCount := 1 }

/-- Embeds ObservableChatbot.clear_history
(demo/langfuse/chatbot-langfuse.py, lines 275-278): sets the history to the
empty list and touches nothing else. -/
def clear_history (st : ChatbotState) : ChatbotState :=
  { st with conversation_history := [] }

/-- Embeds ObservableChatbot.get_history
(demo/langfuse/chatbot-langfuse.py, lines 280-282). -/
def get_history (st : ChatbotState) : List Message :=
  st.conversation_history

end Langfuse

namespace Opik

/-- Embeds OpikObservableChatbot.chat (demo/opik/chatbot-opik.py,
lines 182-319) together with the _call_ollama it invokes (lines 322-351).
Identical history discipline to the langfuse variant; the token-counter
updates (total, prompt, completion) all happen in chat itself, after the
request counter and before the latency observation. -/
def chat (model : String) (backend : List Message → BackendResult)
    (durationMs : Nat) (history : List Message) (user_message : String) :
    TurnTrace :=
  match backend (history ++ [userMsg user_message]) with
  | BackendResult.success resp =>
      { outcome := PyOutcome.ok
          { response := resp.content
            metadata :=
              { duration_ms := durationMs
                total_tokens := resp.prompt_eval_count.getD 0 + resp.eval_count.getD 0
                prompt_tokens := resp.prompt_eval_count.getD 0
                completion_tokens := resp.eval_count.getD 0 } }
        history := history ++ [userMsg user_message, assistantMsg resp.content]
        backendMessages := history ++ [userMsg user_message]
        events :=
          [MetricEvent.request model "success" 1,
           MetricEvent.token model "total"
             (resp.prompt_eval_count.getD 0 + resp.eval_count.getD 0),
           MetricEvent.token model "prompt" (resp.prompt_eval_count.getD 0),
           MetricEvent.token model "completion" (resp.eval_count.getD 0),
           MetricEvent.latency model durationMs]
        llm_status := "success"
        spanExceptionCount := 0 }
  | BackendResult.failure etype emsg =>
      { outcome := PyOutcome.raised etype emsg
        history := history ++ [userMsg user_message]
        backendMessages := history ++ [userMsg user_message]
        events :=
          [MetricEvent.error model etype 1,
           MetricEvent.request model "error" 1]
        llm_status := "error"
        spanExceptionCount := 1 }

/-- Embeds OpikObservableChatbot.clear_history
(demo/opik/chatbot-opik.py, lines 353-356): sets the history to the empty
list and touches nothing else. -/
def clear_history (st : ChatbotState) : ChatbotState :=
  { st with conversation_history := [] }

/-- Embeds OpikObservableChatbot.get_history
(demo/opik/chatbot-opik.py, lines 358-360). -/
def get_history (st : ChatbotState) : List Message :=
  st.conversation_history

end Opik

/-- Termination of a streaming backend call, as seen by the generator that
consumes it: the stream either delivers all its chunks and signals
end-of-stream, or raises an exception after a prefix of chunks, or the
consumer of the generator stops pulling after some pulled chunks and the
generator is closed (GeneratorExit at the suspended yield). -/
inductive StreamTermination where
  | completes (chunks : List String)
  | raisesAfter (chunks : List String) (errType : String) (errMsg : String)
  | abandonedAfter (pulled : List String)
deriving DecidableEq

/-- Record of one streamed turn without an explicit span: the chunk
sequence yielded to the caller in order, the history after the generator
finishes, and the message list the backend was invoked with. -/
structure StreamTurn where
  yielded : List String
  history : List Message
  backendMessages : List Message
deriving DecidableEq

namespace Langtrace

/-- Record of one non-streamed langtrace turn. -/
structure Turn where
  outcome : PyOutcome String
  history : List Message
  backendMessages : List Message
deriving DecidableEq

/-- Embeds chat (demo/langtrace/chatbot-langtrace.py, lines 50-93). The
user message is appended, the backend is invoked with the full history; on
success the assistant message is appended and returned; the except clause
catches the exception and returns the string `"Error: " ++ str(e)` as a
normal return value — nothing is re-raised. -/
def chat (backend : List Message → BackendResult)
    (conversation_history : List Message) (message : String) : Turn :=
  match backend (conversation_history ++ [userMsg message]) with
  | BackendResult.success resp =>
      { outcome := PyOutcome.ok resp.content
        history := conversation_history ++ [userMsg message, assistantMsg resp.content]
        backendMessages := conversation_history ++ [userMsg message] }
  | BackendResult.failure _ emsg =>
      { outcome := PyOutcome.ok ("Error: " ++ emsg)
        history := conversation_history ++ [userMsg message]
        backendMessages := conversation_history ++ [userMsg message] }

/-- Embeds chat_stream (demo/langtrace/chatbot-langtrace.py, lines 96-141).
The accumulator `full_response` collects each chunk before it is yielded,
so on end-of-stream the appended assistant content is the concatenation of
the yielded chunks. A mid-stream exception is caught and the string
`"Error: " ++ str(e)` is yielded as the final element; the assistant append
after the loop is skipped. Consumer abandonment closes the generator at the
suspended yield: the code after the loop never runs, so no assistant
message is appended. -/
def chat_stream (stream : List Message → StreamTermination)
    (conversation_history : List Message) (message : String) : StreamTurn :=
  match stream (conversation_history ++ [userMsg message]) with
  | StreamTermination.completes chunks =>
      { yielded := chunks
        history := conversation_history ++
          [userMsg message, assistantMsg (String.join chunks)]
        backendMessages := conversation_history ++ [userMsg message] }
  | StreamTermination.raisesAfter chunks _ emsg =>
      { yielded := chunks ++ ["Error: " ++ emsg]
        history := conversation_history ++ [userMsg message]
        backendMessages := conversation_history ++ [userMsg message] }
  | StreamTermination.abandonedAfter pulled =>
      { yielded := pulled
        history := conversation_history ++ [userMsg message]
        backendMessages := conversation_history ++ [userMsg message] }

end Langtrace

/-- Terminal status of an OpenTelemetry span. `unset` is the default a span
keeps when no status is set explicitly; `cancelled` is listed as a status
value so that statements about a distinguished cancelled status can be
expressed. -/
inductive SpanStatus where
  | unset
  | ok
  | error
  | cancelled
deriving DecidableEq

/-- Attribute value of a span attribute. -/
inductive AttrVal where
  | str (s : String)
  | nat (n : Nat)
  | bool (b : Bool)
deriving DecidableEq

/-- State of the span opened for a streamed turn once the generator has
terminated: the attributes set on it in order, its status, how many
exceptions were recorded on it, and how many times it was ended. -/
structure StreamSpan where
  attrs : List (String × AttrVal)
  status : SpanStatus
  recordedExceptions : Nat
  endCount : Nat
deriving DecidableEq

/-- Record of one streamed turn of the openllmetry chatbot, including the
span opened by `tracer.start_as_current_span("ollama.chat.stream")`. -/
structure StreamTurnWithSpan where
  yielded : List String
  history : List Message
  backendMessages : List Message
  span : StreamSpan
deriving DecidableEq

namespace Openllmetry

/-- Embeds chat (demo/openllmetry/chatbot-openllmetry-ollama.py,
lines 56-115): same history and return discipline as the langtrace chat —
on a backend exception the except clause returns the string
`"Error: " ++ str(e)` as a normal value. -/
def chat (backend : List Message → BackendResult)
    (conversation_history : List Message) (message : String) :
    Langtrace.Turn :=
  match backend (conversation_history ++ [userMsg message]) with
  | BackendResult.success resp =>
      { outcome := PyOutcome.ok resp.content
        history := conversation_history ++ [userMsg message, assistantMsg resp.content]
        backendMessages := conversation_history ++ [userMsg message] }
  | BackendResult.failure _ emsg =>
      { outcome := PyOutcome.ok ("Error: " ++ emsg)
        history := conversation_history ++ [userMsg message]
        backendMessages := conversation_history ++ [userMsg message] }

/-- Embeds chat_stream (demo/openllmetry/chatbot-openllmetry-ollama.py,
lines 118-170). The generator body runs inside
`with tracer.start_as_current_span("ollama.chat.stream") as span`, which
per the OpenTelemetry context-manager semantics ends the span exactly once
when the block is exited, however it is exited: on normal completion the
status stays at its default `unset` (the code never sets a status); on an
exception the manager records the exception and sets status `error` before
the surrounding `except Exception` clause yields the terminal
`"Error: " ++ str(e)` element; on consumer abandonment GeneratorExit is
thrown at the suspended yield — it is a BaseException, so neither the
manager's Exception handling nor the `except Exception` clause catches it,
and the span is ended with status still `unset` and no exception recorded.
The `llm.response_length` attribute is only set after the loop, so only on
normal completion. -/
def chat_stream (stream : List Message → StreamTermination)
    (conversation_history : List Message) (message : String) :
    StreamTurnWithSpan :=
  match stream (conversation_history ++ [userMsg message]) with
  | StreamTermination.completes chunks =>
      { yielded := chunks
        history := conversation_history ++
          [userMsg message, assistantMsg (String.join chunks)]
        backendMessages := conversation_history ++ [userMsg message]
        span :=
          { attrs := [("llm.model", AttrVal.str "llama3.1:8b"),
                      ("llm.streaming", AttrVal.bool true),
                      ("llm.response_length", AttrVal.nat (String.join chunks).length)]
            status := SpanStatus.unset
            recordedExceptions := 0
            endCount := 1 } }
  | StreamTermination.raisesAfter chunks _ emsg =>
      { yielded := chunks ++ ["Error: " ++ emsg]
        history := conversation_history ++ [userMsg message]
        backendMessages := conversation_history ++ [userMsg message]
        span :=
          { attrs := [("llm.model", AttrVal.str "llama3.1:8b"),
                      ("llm.streaming", AttrVal.bool true)]
            status := SpanStatus.error
            recordedExceptions := 1
            endCount := 1 } }
  | StreamTermination.abandonedAfter pulled =>
      { yielded := pulled
        history := conversation_history ++ [userMsg message]
        backendMessages := conversation_history ++ [userMsg message]
        span :=
          { attrs := [("llm.model", AttrVal.str "llama3.1:8b"),
                      ("llm.streaming", AttrVal.bool true)]
            status := SpanStatus.unset
            recordedExceptions := 0
            endCount := 1 } }

end Openllmetry

/-! Reduction lemmas: the value of each embedded call once the backend
outcome is fixed. Each is proved by unfolding the definition and reducing
the match on the backend result. -/

/-- Reduction of the langfuse chat on a successful backend call. -/
theorem Langfuse.langfuse_chat_success_eq (model : String)
    (backend : List Message → BackendResult) (d : Nat)
    (history : List Message) (u : String) (resp : OllamaResponse)
    (h : backend (history ++ [userMsg u]) = BackendResult.success resp) :
    Langfuse.chat model backend d history u =
      { outcome := PyOutcome.ok
          { response := (call_ollama_result resp).content
            metadata :=
              { duration_ms := d
                total_tokens := (call_ollama_result resp).total_tokens
                prompt_tokens := (call_ollama_result resp).prompt_eval_count
                completion_tokens := (call_ollama_result resp).eval_count } }
        history := history ++ [userMsg u, assistantMsg (call_ollama_result resp).content]
        backendMessages := history ++ [userMsg u]
        events :=
          [MetricEvent.token model "prompt" (call_ollama_result resp).prompt_eval_count,
           MetricEvent.token model "completion" (call_ollama_result resp).eval_count,
           MetricEvent.request model "success" 1,
           MetricEvent.token model "total" (call_ollama_result resp).total_tokens,
           MetricEvent.latency model d]
        llm_status := "success"
        spanExceptionCount := 0 } := by
  unfold Langfuse.chat
  rw [h]

/-- Reduction of the langfuse chat on a failing backend call. -/
theorem Langfuse.langfuse_chat_failure_eq (model : String)
    (backend : List Message → BackendResult) (d : Nat)
    (history : List Message) (u : String) (etype emsg : String)
    (h : backend (history ++ [userMsg u]) = BackendResult.failure etype emsg) :
    Langfuse.chat model backend d history u =
      { outcome := PyOutcome.raised etype emsg
        history := history ++ [userMsg u]
        backendMessages := history ++ [userMsg u]
        events :=
          [MetricEvent.error model etype 1,
           MetricEvent.request model "error" 1]
        llm_status := "error"
        spanExceptionCount := 1 } := by
  unfold Langfuse.chat
  rw [h]

/-- Reduction of the opik chat on a successful backend call. -/
theorem Opik.opik_chat_success_eq (model : String)
    (backend : List Message → BackendResult) (d : Nat)
    (history : List Message) (u : String) (resp : OllamaResponse)
    (h : backend (history ++ [userMsg u]) = BackendResult.success resp) :
    Opik.chat model backend d history u =
      { outcome := PyOutcome.ok
          { response := resp.content
            metadata :=
              { duration_ms := d
                total_tokens := resp.prompt_eval_count.getD 0 + resp.eval_count.getD 0
                prompt_tokens := resp.prompt_eval_count.getD 0
                completion_tokens := resp.eval_count.getD 0 } }
        history := history ++ [userMsg u, assistantMsg resp.content]
        backendMessages := history ++ [userMsg u]
        events :=
          [MetricEvent.request model "success" 1,
           MetricEvent.token model "total"
             (resp.prompt_eval_count.getD 0 + resp.eval_count.getD 0),
           MetricEvent.token model "prompt" (resp.prompt_eval_count.getD 0),
           MetricEvent.token model "completion" (resp.eval_count.getD 0),
           MetricEvent.latency model d]
        llm_status := "success"
        spanExceptionCount := 0 } := by
  unfold Opik.chat
  rw [h]

/-- Reduction of the opik chat on a failing backend call. -/
theorem Opik.opik_chat_failure_eq (model : String)
    (backend : List Message → BackendResult) (d : Nat)
    (history : List Message) (u : String) (etype emsg : String)
    (h : backend (history ++ [userMsg u]) = BackendResult.failure etype emsg) :
    Opik.chat model backend d history u =
      { outcome := PyOutcome.raised etype emsg
        history := history ++ [userMsg u]
        backendMessages := history ++ [userMsg u]
        events :=
          [MetricEvent.error model etype 1,
           MetricEvent.request model "error" 1]
        llm_status := "error"
        spanExceptionCount := 1 } := by
  unfold Opik.chat
  rw [h]

/-- Reduction of the langtrace chat on a failing backend call. -/
theorem Langtrace.langtrace_chat_failure_eq
    (backend : List Message → BackendResult)
    (history : List Message) (u : String) (etype emsg : String)
    (h : backend (history ++ [userMsg u]) = BackendResult.failure etype emsg) :
    Langtrace.chat backend history u =
      { outcome := PyOutcome.ok ("Error: " ++ emsg)
        history := history ++ [userMsg u]
        backendMessages := history ++ [userMsg u] } := by
  unfold Langtrace.chat
  rw [h]

/-- Reduction of the langtrace chat on a successful backend call. -/
theorem Langtrace.langtrace_chat_success_eq
    (backend : List Message → BackendResult)
    (history : List Message) (u : String) (resp : OllamaResponse)
    (h : backend (history ++ [userMsg u]) = BackendResult.success resp) :
    Langtrace.chat backend history u =
      { outcome := PyOutcome.ok resp.content
        history := history ++ [userMsg u, assistantMsg resp.content]
        backendMessages := history ++ [userMsg u] } := by
  unfold Langtrace.chat
  rw [h]

/-- Reduction of the openllmetry chat on a failing backend call. -/
theorem Openllmetry.openllmetry_chat_failure_eq
    (backend : List Message → BackendResult)
    (history : List Message) (u : String) (etype emsg : String)
    (h : backend (history ++ [userMsg u]) = BackendResult.failure etype emsg) :
    Openllmetry.chat backend history u =
      { outcome := PyOutcome.ok ("Error: " ++ emsg)
        history := history ++ [userMsg u]
        backendMessages := history ++ [userMsg u] } := by
  unfold Openllmetry.chat
  rw [h]

/-- Reduction of the langtrace streamed chat on a completing stream. -/
theorem Langtrace.langtrace_chat_stream_completes_eq
    (stream : List Message → StreamTermination)
    (history : List Message) (u : String) (chunks : List String)
    (h : stream (history ++ [userMsg u]) = StreamTermination.completes chunks) :
    Langtrace.chat_stream stream history u =
      { yielded := chunks
        history := history ++ [userMsg u, assistantMsg (String.join chunks)]
        backendMessages := history ++ [userMsg u] } := by
  unfold Langtrace.chat_stream
  rw [h]

/-- Reduction of the langtrace streamed chat on a mid-stream exception. -/
theorem Langtrace.langtrace_chat_stream_raises_eq
    (stream : List Message → StreamTermination)
    (history : List Message) (u : String) (chunks : List String)
    (etype emsg : String)
    (h : stream (history ++ [userMsg u])
        = StreamTermination.raisesAfter chunks etype emsg) :
    Langtrace.chat_stream stream history u =
      { yielded := chunks ++ ["Error: " ++ emsg]
        history := history ++ [userMsg u]
        backendMessages := history ++ [userMsg u] } := by
  unfold Langtrace.chat_stream
  rw [h]

/-- Reduction of the openllmetry streamed chat on a completing stream. -/
theorem Openllmetry.openllmetry_chat_stream_completes_eq
    (stream : List Message → StreamTermination)
    (history : List Message) (u : String) (chunks : List String)
    (h : stream (history ++ [userMsg u]) = StreamTermination.completes chunks) :
    Openllmetry.chat_stream stream history u =
      { yielded := chunks
        history := history ++ [userMsg u, assistantMsg (String.join chunks)]
        backendMessages := history ++ [userMsg u]
        span :=
          { attrs := [("llm.model", AttrVal.str "llama3.1:8b"),
                      ("llm.streaming", AttrVal.bool true),
                      ("llm.response_length", AttrVal.nat (String.join chunks).length)]
            status := SpanStatus.unset
            recordedExceptions := 0
            endCount := 1 } } := by
  unfold Openllmetry.chat_stream
  rw [h]

/-- Reduction of the openllmetry streamed chat on a mid-stream exception. -/
theorem Openllmetry.openllmetry_chat_stream_raises_eq
    (stream : List Message → StreamTermination)
    (history : List Message) (u : String) (chunks : List String)
    (etype emsg : String)
    (h : stream (history ++ [userMsg u])
        = StreamTermination.raisesAfter chunks etype emsg) :
    Openllmetry.chat_stream stream history u =
      { yielded := chunks ++ ["Error: " ++ emsg]
        history := history ++ [userMsg u]
        backendMessages := history ++ [userMsg u]
        span :=
          { attrs := [("llm.model", AttrVal.str "llama3.1:8b"),
                      ("llm.streaming", AttrVal.bool true)]
            status := SpanStatus.error
            recordedExceptions := 1
            endCount := 1 } } := by
  unfold Openllmetry.chat_stream
  rw [h]

/-- Reduction of the openllmetry streamed chat on consumer abandonment. -/
theorem Openllmetry.openllmetry_chat_stream_abandoned_eq
    (stream : List Message → StreamTermination)
    (history : List Message) (u : String) (pulled : List String)
    (h : stream (history ++ [userMsg u])
        = StreamTermination.abandonedAfter pulled) :
    Openllmetry.chat_stream stream history u =
      { yielded := pulled
        history := history ++ [userMsg u]
        backendMessages := history ++ [userMsg u]
        span :=
          { attrs := [("llm.model", AttrVal.str "llama3.1:8b"),
                      ("llm.streaming", AttrVal.bool true)]
            status := SpanStatus.unset
            recordedExceptions := 0
            endCount := 1 } } := by
  unfold Openllmetry.chat_stream
  rw [h]

/-- The langfuse chat always invokes the backend with the prior history
followed by the new user message, whatever the backend outcome. -/
theorem Langfuse.langfuse_chat_backendMessages (model : String)
    (backend : List Message → BackendResult) (d : Nat)
    (history : List Message) (u : String) :
    (Langfuse.chat model backend d history u).backendMessages
      = history ++ [userMsg u] := by
  unfold Langfuse.chat
  cases backend (history ++ [userMsg u]) <;> rfl

/-- The opik chat always invokes the backend with the prior history
followed by the new user message, whatever the backend outcome. -/
theorem Opik.opik_chat_backendMessages (model : String)
    (backend : List Message → BackendResult) (d : Nat)
    (history : List Message) (u : String) :
    (Opik.chat model backend d history u).backendMessages
      = history ++ [userMsg u] := by
  unfold Opik.chat
  cases backend (history ++ [userMsg u]) <;> rfl

/-- The langtrace chat always invokes the backend with the prior history
followed by the new user message, whatever the backend outcome. -/
theorem Langtrace.langtrace_chat_backendMessages
    (backend : List Message → BackendResult)
    (history : List Message) (u : String) :
    (Langtrace.chat backend history u).backendMessages
      = history ++ [userMsg u] := by
  unfold Langtrace.chat
  cases backend (history ++ [userMsg u]) <;> rfl

/-- The openllmetry chat always invokes the backend with the prior history
followed by the new user message, whatever the backend outcome. -/
theorem Openllmetry.openllmetry_chat_backendMessages
    (backend : List Message → BackendResult)
    (history : List Message) (u : String) :
    (Openllmetry.chat backend history u).backendMessages
      = history ++ [userMsg u] := by
  unfold Openllmetry.chat
  cases backend (history ++ [userMsg u]) <;> rfl

/-- The langtrace streamed chat always invokes the backend with the prior
history followed by the new user message, however the stream terminates. -/
theorem Langtrace.langtrace_chat_stream_backendMessages
    (stream : List Message → StreamTermination)
    (history : List Message) (u : String) :
    (Langtrace.chat_stream stream history u).backendMessages
      = history ++ [userMsg u] := by
  unfold Langtrace.chat_stream
  cases stream (history ++ [userMsg u]) <;> rfl

/-- The openllmetry streamed chat always invokes the backend with the prior
history followed by the new user message, however the stream terminates. -/
theorem Openllmetry.openllmetry_chat_stream_backendMessages
    (stream : List Message → StreamTermination)
    (history : List Message) (u : String) :
    (Openllmetry.chat_stream stream history u).backendMessages
      = history ++ [userMsg u] := by
  unfold Openllmetry.chat_stream
  cases stream (history ++ [userMsg u]) <;> rfl

/-! Claims C1 to C10. -/

/-- Claim C1, counterexample. The claim states that a failed turn leaves
the ConversationHistory unchanged. On the langfuse chatbot, with an empty
history and a backend that raises, the history after the failed chat call
is not empty: the user message appended before the backend call is never
removed. -/
theorem C1_counterexample :
    (Langfuse.chat "m1" (fun _ => BackendResult.failure "ValueError" "boom")
        5 [] "hi").history ≠ ([] : List Message) ∧
    (Langfuse.chat "m1" (fun _ => BackendResult.failure "ValueError" "boom")
        5 [] "hi").history.length = 1 := by
  constructor
  · decide
  · rfl

/-- Claim C1, amended: for every turn that fails (the backend call raises),
no assistant message is committed, but the user message appended before the
backend call stays — the history after the failed chat call equals the
history before it with exactly the one user entry appended, in both the
langfuse and the opik chatbots. -/
theorem C1_failed_turn_keeps_only_user_message (model : String)
    (backend : List Message → BackendResult) (d : Nat)
    (history : List Message) (u : String) (etype emsg : String)
    (h : backend (history ++ [userMsg u]) = BackendResult.failure etype emsg) :
    (Langfuse.chat model backend d history u).history = history ++ [userMsg u] ∧
    (Opik.chat model backend d history u).history = history ++ [userMsg u] := by
  rw [Langfuse.langfuse_chat_failure_eq model backend d history u etype emsg h,
    Opik.opik_chat_failure_eq model backend d history u etype emsg h]
  exact ⟨rfl, rfl⟩

/-- Claim C1, witness for the amended theorem at a concrete failing turn. -/
theorem C1_witness :
    (Langfuse.chat "m1" (fun _ => BackendResult.failure "ValueError" "boom")
        5 [userMsg "a", assistantMsg "b"] "hi").history
      = [userMsg "a", assistantMsg "b", userMsg "hi"] ∧
    (Opik.chat "m1" (fun _ => BackendResult.failure "ValueError" "boom")
        5 [userMsg "a", assistantMsg "b"] "hi").history
      = [userMsg "a", assistantMsg "b", userMsg "hi"] :=
  C1_failed_turn_keeps_only_user_message "m1"
    (fun _ => BackendResult.failure "ValueError" "boom") 5
    [userMsg "a", assistantMsg "b"] "hi" "ValueError" "boom" rfl

/-- Claim C2, counterexample. The claim states that a failed non-streamed
turn propagates the failure to the caller as a raised error or error
variant. In the cited langtrace chat, a backend failure is caught and the
function returns normally with the string value composed of the prefix
Error and the message — a value in the same channel as a successful
response, not a raised failure. -/
theorem C2_counterexample :
    (Langtrace.chat (fun _ => BackendResult.failure "ConnectionError" "boom")
        [] "hi").outcome = PyOutcome.ok "Error: boom" ∧
    (Langtrace.chat (fun _ => BackendResult.failure "ConnectionError" "boom")
        [] "hi").outcome ≠ PyOutcome.raised "ConnectionError" "boom" := by
  constructor
  · rfl
  · decide

/-- Claim C2, amended: in the langtrace and openllmetry chatbots a failed
non-streamed turn is caught and surfaced to the caller as the normally
returned string composed of the prefix Error and the exception message (the
same channel as a success value), while in the langfuse and opik chatbots
the exception is re-raised to the caller after the failure metrics and span
attributes are recorded. -/
theorem C2_failure_surfaced_as_error_string
    (backend : List Message → BackendResult)
    (history : List Message) (u : String) (etype emsg : String)
    (h : backend (history ++ [userMsg u]) = BackendResult.failure etype emsg) :
    (Langtrace.chat backend history u).outcome
        = PyOutcome.ok ("Error: " ++ emsg) ∧
    (Openllmetry.chat backend history u).outcome
        = PyOutcome.ok ("Error: " ++ emsg) ∧
    ∀ model d,
      (Langfuse.chat model backend d history u).outcome
          = PyOutcome.raised etype emsg ∧
      (Langfuse.chat model backend d history u).llm_status = "error" ∧
      countRequestWith (Langfuse.chat model backend d history u).events "error" = 1 ∧
      (Opik.chat model backend d history u).outcome
          = PyOutcome.raised etype emsg := by
  refine ⟨?_, ?_, ?_⟩
  · rw [Langtrace.langtrace_chat_failure_eq backend history u etype emsg h]
  · rw [Openllmetry.openllmetry_chat_failure_eq backend history u etype emsg h]
  · intro model d
    rw [Langfuse.langfuse_chat_failure_eq model backend d history u etype emsg h,
      Opik.opik_chat_failure_eq model backend d history u etype emsg h]
    exact ⟨rfl, rfl, rfl, rfl⟩

/-- Claim C2, witness for the amended theorem at a concrete failing turn. -/
theorem C2_witness :
    (Langtrace.chat (fun _ => BackendResult.failure "ConnectionError" "down")
        [] "hi").outcome = PyOutcome.ok ("Error: " ++ "down") ∧
    (Openllmetry.chat (fun _ => BackendResult.failure "ConnectionError" "down")
        [] "hi").outcome = PyOutcome.ok ("Error: " ++ "down") ∧
    ∀ model d,
      (Langfuse.chat model
          (fun _ => BackendResult.failure "ConnectionError" "down")
          d [] "hi").outcome = PyOutcome.raised "ConnectionError" "down" ∧
      (Langfuse.chat model
          (fun _ => BackendResult.failure "ConnectionError" "down")
          d [] "hi").llm_status = "error" ∧
      countRequestWith (Langfuse.chat model
          (fun _ => BackendResult.failure "ConnectionError" "down")
          d [] "hi").events "error" = 1 ∧
      (Opik.chat model
          (fun _ => BackendResult.failure "ConnectionError" "down")
          d [] "hi").outcome = PyOutcome.raised "ConnectionError" "down" :=
  C2_failure_surfaced_as_error_string
    (fun _ => BackendResult.failure "ConnectionError" "down")
    [] "hi" "ConnectionError" "down" rfl

/-- Claim C3: on every successful non-streamed turn the history grows by
exactly two entries — the user message with the input text, then the
assistant message whose content is the content field of the backend
response — and nothing else is added or modified, in both the langfuse and
the opik chatbots; the returned response is that same content. -/
theorem C3_success_history_grows_by_two (model : String)
    (backend : List Message → BackendResult) (d : Nat)
    (history : List Message) (u : String) (resp : OllamaResponse)
    (h : backend (history ++ [userMsg u]) = BackendResult.success resp) :
    (Langfuse.chat model backend d history u).history
        = history ++ [userMsg u, assistantMsg resp.content] ∧
    (∃ r, (Langfuse.chat model backend d history u).outcome = PyOutcome.ok r ∧
      r.response = resp.content) ∧
    (Opik.chat model backend d history u).history
        = history ++ [userMsg u, assistantMsg resp.content] ∧
    (∃ r, (Opik.chat model backend d history u).outcome = PyOutcome.ok r ∧
      r.response = resp.content) := by
  rw [Langfuse.langfuse_chat_success_eq model backend d history u resp h,
    Opik.opik_chat_success_eq model backend d history u resp h]
  exact ⟨rfl, ⟨_, rfl, rfl⟩, rfl, ⟨_, rfl, rfl⟩⟩

/-- Claim C3, witness at a concrete successful turn. -/
theorem C3_witness :
    (Langfuse.chat "m1"
        (fun _ => BackendResult.success ⟨"hello", some 3, some 1⟩)
        5 [] "hi").history = [] ++ [userMsg "hi", assistantMsg "hello"] ∧
    (∃ r, (Langfuse.chat "m1"
        (fun _ => BackendResult.success ⟨"hello", some 3, some 1⟩)
        5 [] "hi").outcome = PyOutcome.ok r ∧ r.response = "hello") ∧
    (Opik.chat "m1"
        (fun _ => BackendResult.success ⟨"hello", some 3, some 1⟩)
        5 [] "hi").history = [] ++ [userMsg "hi", assistantMsg "hello"] ∧
    (∃ r, (Opik.chat "m1"
        (fun _ => BackendResult.success ⟨"hello", some 3, some 1⟩)
        5 [] "hi").outcome = PyOutcome.ok r ∧ r.response = "hello") :=
  C3_success_history_grows_by_two "m1"
    (fun _ => BackendResult.success ⟨"hello", some 3, some 1⟩)
    5 [] "hi" ⟨"hello", some 3, some 1⟩ rfl

/-- Claim C4: for a streamed turn the backend completes, under the backend
coherence assumption that for the same message context the streamed chunks
concatenate to the content of the non-streamed response, the concatenation
in yield order of all chunks yielded to the caller equals the content the
non-streaming chat returns for identical input and model state, and equals
the content of the single assistant message appended to the history at
end-of-stream, for both the langtrace and the openllmetry streamed chats. -/
theorem C4_stream_content_equivalence
    (stream : List Message → StreamTermination)
    (backend : List Message → BackendResult)
    (history : List Message) (u : String) (chunks : List String)
    (resp : OllamaResponse)
    (hs : stream (history ++ [userMsg u]) = StreamTermination.completes chunks)
    (hb : backend (history ++ [userMsg u]) = BackendResult.success resp)
    (hsame : String.join chunks = resp.content) :
    String.join (Langtrace.chat_stream stream history u).yielded
        = resp.content ∧
    (Langtrace.chat backend history u).outcome = PyOutcome.ok resp.content ∧
    (Langtrace.chat_stream stream history u).history
        = history ++ [userMsg u,
            assistantMsg (String.join (Langtrace.chat_stream stream history u).yielded)] ∧
    String.join (Openllmetry.chat_stream stream history u).yielded
        = resp.content ∧
    (Openllmetry.chat_stream stream history u).history
        = history ++ [userMsg u,
            assistantMsg (String.join (Openllmetry.chat_stream stream history u).yielded)] := by
  rw [Langtrace.langtrace_chat_stream_completes_eq stream history u chunks hs,
    Langtrace.langtrace_chat_success_eq backend history u resp hb,
    Openllmetry.openllmetry_chat_stream_completes_eq stream history u chunks hs]
  exact ⟨hsame, rfl, rfl, hsame, rfl⟩

/-- Claim C4, witness at a concrete completing stream. -/
theorem C4_witness :
    String.join (Langtrace.chat_stream
        (fun _ => StreamTermination.completes ["he", "llo"]) [] "hi").yielded
      = "hello" ∧
    (Langtrace.chat (fun _ => BackendResult.success ⟨"hello", none, none⟩)
        [] "hi").outcome = PyOutcome.ok "hello" ∧
    (Langtrace.chat_stream
        (fun _ => StreamTermination.completes ["he", "llo"]) [] "hi").history
      = [] ++ [userMsg "hi",
          assistantMsg (String.join (Langtrace.chat_stream
            (fun _ => StreamTermination.completes ["he", "llo"]) [] "hi").yielded)] ∧
    String.join (Openllmetry.chat_stream
        (fun _ => StreamTermination.completes ["he", "llo"]) [] "hi").yielded
      = "hello" ∧
    (Openllmetry.chat_stream
        (fun _ => StreamTermination.completes ["he", "llo"]) [] "hi").history
      = [] ++ [userMsg "hi",
          assistantMsg (String.join (Openllmetry.chat_stream
            (fun _ => StreamTermination.completes ["he", "llo"]) [] "hi").yielded)] :=
  C4_stream_content_equivalence
    (fun _ => StreamTermination.completes ["he", "llo"])
    (fun _ => BackendResult.success ⟨"hello", none, none⟩)
    [] "hi" ["he", "llo"] ⟨"hello", none, none⟩ rfl rfl (by decide)

/-- Claim C5: when the backend raises mid-stream, the partially accumulated
assistant content is not committed — the history keeps only the user
message of the turn, with no assistant entry — and the error is forwarded
to the caller as the terminal element of the yielded chunk sequence, for
both the langtrace and the openllmetry streamed chats; on the openllmetry
side the turn span records the exception, closes exactly once and ends with
status error. -/
theorem C5_midstream_error_not_committed
    (stream : List Message → StreamTermination)
    (history : List Message) (u : String) (chunks : List String)
    (etype emsg : String)
    (h : stream (history ++ [userMsg u])
        = StreamTermination.raisesAfter chunks etype emsg) :
    (Langtrace.chat_stream stream history u).history
        = history ++ [userMsg u] ∧
    (Langtrace.chat_stream stream history u).yielded.getLast?
        = some ("Error: " ++ emsg) ∧
    (Openllmetry.chat_stream stream history u).history
        = history ++ [userMsg u] ∧
    (Openllmetry.chat_stream stream history u).yielded.getLast?
        = some ("Error: " ++ emsg) ∧
    (Openllmetry.chat_stream stream history u).span.status = SpanStatus.error ∧
    (Openllmetry.chat_stream stream history u).span.recordedExceptions = 1 ∧
    (Openllmetry.chat_stream stream history u).span.endCount = 1 := by
  rw [Langtrace.langtrace_chat_stream_raises_eq stream history u chunks etype emsg h,
    Openllmetry.openllmetry_chat_stream_raises_eq stream history u chunks etype emsg h]
  exact ⟨rfl, List.getLast?_concat chunks, rfl, List.getLast?_concat chunks,
    rfl, rfl, rfl⟩

/-- Claim C5, witness at a concrete mid-stream failure. -/
theorem C5_witness :
    (Langtrace.chat_stream
        (fun _ => StreamTermination.raisesAfter ["par", "tial"] "T" "lost")
        [] "hi").history = [] ++ [userMsg "hi"] ∧
    (Langtrace.chat_stream
        (fun _ => StreamTermination.raisesAfter ["par", "tial"] "T" "lost")
        [] "hi").yielded.getLast? = some ("Error: " ++ "lost") ∧
    (Openllmetry.chat_stream
        (fun _ => StreamTermination.raisesAfter ["par", "tial"] "T" "lost")
        [] "hi").history = [] ++ [userMsg "hi"] ∧
    (Openllmetry.chat_stream
        (fun _ => StreamTermination.raisesAfter ["par", "tial"] "T" "lost")
        [] "hi").yielded.getLast? = some ("Error: " ++ "lost") ∧
    (Openllmetry.chat_stream
        (fun _ => StreamTermination.raisesAfter ["par", "tial"] "T" "lost")
        [] "hi").span.status = SpanStatus.error ∧
    (Openllmetry.chat_stream
        (fun _ => StreamTermination.raisesAfter ["par", "tial"] "T" "lost")
        [] "hi").span.recordedExceptions = 1 ∧
    (Openllmetry.chat_stream
        (fun _ => StreamTermination.raisesAfter ["par", "tial"] "T" "lost")
        [] "hi").span.endCount = 1 :=
  C5_midstream_error_not_committed
    (fun _ => StreamTermination.raisesAfter ["par", "tial"] "T" "lost")
    [] "hi" ["par", "tial"] "T" "lost" rfl

/-- Claim C6: in the langfuse and opik chatbots, a successful turn emits
exactly one request-counter increment with status success (and no other
request increment), exactly one latency-histogram observation, and exactly
three token-counter increments — one each with type prompt, completion and
total; a failed turn emits exactly one request-counter increment, carrying
status error. -/
theorem C6_metric_increment_counts (model : String)
    (backend : List Message → BackendResult) (d : Nat)
    (history : List Message) (u : String) (resp : OllamaResponse)
    (etype emsg : String) :
    (backend (history ++ [userMsg u]) = BackendResult.success resp →
      countRequestWith (Langfuse.chat model backend d history u).events "success" = 1 ∧
      countRequest (Langfuse.chat model backend d history u).events = 1 ∧
      countLatency (Langfuse.chat model backend d history u).events = 1 ∧
      countTokenWith (Langfuse.chat model backend d history u).events "prompt" = 1 ∧
      countTokenWith (Langfuse.chat model backend d history u).events "completion" = 1 ∧
      countTokenWith (Langfuse.chat model backend d history u).events "total" = 1 ∧
      countToken (Langfuse.chat model backend d history u).events = 3 ∧
      countRequestWith (Opik.chat model backend d history u).events "success" = 1 ∧
      countRequest (Opik.chat model backend d history u).events = 1 ∧
      countLatency (Opik.chat model backend d history u).events = 1 ∧
      countTokenWith (Opik.chat model backend d history u).events "prompt" = 1 ∧
      countTokenWith (Opik.chat model backend d history u).events "completion" = 1 ∧
      countTokenWith (Opik.chat model backend d history u).events "total" = 1 ∧
      countToken (Opik.chat model backend d history u).events = 3) ∧
    (backend (history ++ [userMsg u]) = BackendResult.failure etype emsg →
      countRequest (Langfuse.chat model backend d history u).events = 1 ∧
      countRequestWith (Langfuse.chat model backend d history u).events "error" = 1 ∧
      countRequest (Opik.chat model backend d history u).events = 1 ∧
      countRequestWith (Opik.chat model backend d history u).events "error" = 1) := by
  constructor
  · intro h
    rw [Langfuse.langfuse_chat_success_eq model backend d history u resp h,
      Opik.opik_chat_success_eq model backend d history u resp h]
    exact ⟨rfl, rfl, rfl, rfl, rfl, rfl, rfl, rfl, rfl, rfl, rfl, rfl, rfl, rfl⟩
  · intro h
    rw [Langfuse.langfuse_chat_failure_eq model backend d history u etype emsg h,
      Opik.opik_chat_failure_eq model backend d history u etype emsg h]
    exact ⟨rfl, rfl, rfl, rfl⟩

/-- Claim C6, witness: a concrete successful turn and a concrete failed
turn, with the counts evaluated. -/
theorem C6_witness :
    (countRequestWith (Langfuse.chat "m1"
        (fun _ => BackendResult.success ⟨"hello", some 3, some 1⟩)
        5 [] "hi").events "success" = 1 ∧
      countRequest (Langfuse.chat "m1"
        (fun _ => BackendResult.success ⟨"hello", some 3, some 1⟩)
        5 [] "hi").events = 1 ∧
      countLatency (Langfuse.chat "m1"
        (fun _ => BackendResult.success ⟨"hello", some 3, some 1⟩)
        5 [] "hi").events = 1 ∧
      countTokenWith (Langfuse.chat "m1"
        (fun _ => BackendResult.success ⟨"hello", some 3, some 1⟩)
        5 [] "hi").events "prompt" = 1 ∧
      countTokenWith (Langfuse.chat "m1"
        (fun _ => BackendResult.success ⟨"hello", some 3, some 1⟩)
        5 [] "hi").events "completion" = 1 ∧
      countTokenWith (Langfuse.chat "m1"
        (fun _ => BackendResult.success ⟨"hello", some 3, some 1⟩)
        5 [] "hi").events "total" = 1 ∧
      countToken (Langfuse.chat "m1"
        (fun _ => BackendResult.success ⟨"hello", some 3, some 1⟩)
        5 [] "hi").events = 3 ∧
      countRequestWith (Opik.chat "m1"
        (fun _ => BackendResult.success ⟨"hello", some 3, some 1⟩)
        5 [] "hi").events "success" = 1 ∧
      countRequest (Opik.chat "m1"
        (fun _ => BackendResult.success ⟨"hello", some 3, some 1⟩)
        5 [] "hi").events = 1 ∧
      countLatency (Opik.chat "m1"
        (fun _ => BackendResult.success ⟨"hello", some 3, some 1⟩)
        5 [] "hi").events = 1 ∧
      countTokenWith (Opik.chat "m1"
        (fun _ => BackendResult.success ⟨"hello", some 3, some 1⟩)
        5 [] "hi").events "prompt" = 1 ∧
      countTokenWith (Opik.chat "m1"
        (fun _ => BackendResult.success ⟨"hello", some 3, some 1⟩)
        5 [] "hi").events "completion" = 1 ∧
      countTokenWith (Opik.chat "m1"
        (fun _ => BackendResult.success ⟨"hello", some 3, some 1⟩)
        5 [] "hi").events "total" = 1 ∧
      countToken (Opik.chat "m1"
        (fun _ => BackendResult.success ⟨"hello", some 3, some 1⟩)
        5 [] "hi").events = 3) ∧
    (countRequest (Langfuse.chat "m1"
        (fun _ => BackendResult.failure "ValueError" "boom")
        5 [] "hi").events = 1 ∧
      countRequestWith (Langfuse.chat "m1"
        (fun _ => BackendResult.failure "ValueError" "boom")
        5 [] "hi").events "error" = 1 ∧
      countRequest (Opik.chat "m1"
        (fun _ => BackendResult.failure "ValueError" "boom")
        5 [] "hi").events = 1 ∧
      countRequestWith (Opik.chat "m1"
        (fun _ => BackendResult.failure "ValueError" "boom")
        5 [] "hi").events "error" = 1) :=
  ⟨(C6_metric_increment_counts "m1"
      (fun _ => BackendResult.success ⟨"hello", some 3, some 1⟩)
      5 [] "hi" ⟨"hello", some 3, some 1⟩ "ValueError" "boom").1 rfl,
    (C6_metric_increment_counts "m1"
      (fun _ => BackendResult.failure "ValueError" "boom")
      5 [] "hi" ⟨"hello", some 3, some 1⟩ "ValueError" "boom").2 rfl⟩

/-- Claim C7: after clear_history, get_history returns the empty sequence,
the metric log is untouched, and the backend call of the next turn receives
exactly the new user message of that turn as its whole context, in both the
langfuse and the opik chatbots. -/
theorem C7_clear_history_resets (st : ChatbotState) (model : String)
    (backend : List Message → BackendResult) (d : Nat) (u : String) :
    Langfuse.get_history (Langfuse.clear_history st) = [] ∧
    (Langfuse.clear_history st).metricLog = st.metricLog ∧
    Opik.get_history (Opik.clear_history st) = [] ∧
    (Opik.clear_history st).metricLog = st.metricLog ∧
    (Langfuse.chat model backend d
        (Langfuse.get_history (Langfuse.clear_history st)) u).backendMessages
      = [userMsg u] ∧
    (Opik.chat model backend d
        (Opik.get_history (Opik.clear_history st)) u).backendMessages
      = [userMsg u] := by
  refine ⟨rfl, rfl, rfl, rfl, ?_, ?_⟩
  · show (Langfuse.chat model backend d [] u).backendMessages = [userMsg u]
    rw [Langfuse.langfuse_chat_backendMessages model backend d [] u]
    exact List.nil_append _
  · show (Opik.chat model backend d [] u).backendMessages = [userMsg u]
    rw [Opik.opik_chat_backendMessages model backend d [] u]
    exact List.nil_append _

/-- Claim C8: in every implementation, streamed or not, the user message is
appended to the history before the backend is invoked, and the backend
receives the full ordered history whose last element is that new user
message — whatever the backend then does. -/
theorem C8_backend_receives_user_message_last (model : String)
    (backend : List Message → BackendResult) (d : Nat)
    (stream : List Message → StreamTermination)
    (history : List Message) (u : String) :
    (Langfuse.chat model backend d history u).backendMessages
        = history ++ [userMsg u] ∧
    (Langfuse.chat model backend d history u).backendMessages.getLast?
        = some (userMsg u) ∧
    (Opik.chat model backend d history u).backendMessages
        = history ++ [userMsg u] ∧
    (Langtrace.chat backend history u).backendMessages
        = history ++ [userMsg u] ∧
    (Openllmetry.chat backend history u).backendMessages
        = history ++ [userMsg u] ∧
    (Langtrace.chat_stream stream history u).backendMessages
        = history ++ [userMsg u] ∧
    (Openllmetry.chat_stream stream history u).backendMessages
        = history ++ [userMsg u] ∧
    (Openllmetry.chat_stream stream history u).backendMessages.getLast?
        = some (userMsg u) := by
  refine ⟨Langfuse.langfuse_chat_backendMessages model backend d history u, ?_,
    Opik.opik_chat_backendMessages model backend d history u,
    Langtrace.langtrace_chat_backendMessages backend history u,
    Openllmetry.openllmetry_chat_backendMessages backend history u,
    Langtrace.langtrace_chat_stream_backendMessages stream history u,
    Openllmetry.openllmetry_chat_stream_backendMessages stream history u, ?_⟩
  · rw [Langfuse.langfuse_chat_backendMessages model backend d history u]
    exact List.getLast?_concat history
  · rw [Openllmetry.openllmetry_chat_stream_backendMessages stream history u]
    exact List.getLast?_concat history

/-- Claim C9, counterexample. The claim states that abandoning the stream
mid-sequence closes the span with a distinguished cancelled terminal
status. On the openllmetry streamed chat abandoned after one chunk, the
span is indeed closed exactly once, but its status is the default unset
status — nothing in the code ever sets a cancelled status. -/
theorem C9_counterexample :
    (Openllmetry.chat_stream (fun _ => StreamTermination.abandonedAfter ["he"])
        [] "hi").span.endCount = 1 ∧
    (Openllmetry.chat_stream (fun _ => StreamTermination.abandonedAfter ["he"])
        [] "hi").span.status = SpanStatus.unset ∧
    (Openllmetry.chat_stream (fun _ => StreamTermination.abandonedAfter ["he"])
        [] "hi").span.status ≠ SpanStatus.cancelled := by
  exact ⟨rfl, rfl, by decide⟩

/-- Claim C9, amended: if the consumer of an openllmetry streamed turn
stops pulling before the stream reaches its end or an error, the span
opened for the turn is still closed exactly once — the scoped span context
manager ends it when the generator is closed — but it closes with the
default unset status, not a distinguished cancelled status, and no
exception is recorded on it; no assistant message is committed either. -/
theorem C9_abandoned_stream_closes_span_once
    (stream : List Message → StreamTermination)
    (history : List Message) (u : String) (pulled : List String)
    (h : stream (history ++ [userMsg u])
        = StreamTermination.abandonedAfter pulled) :
    (Openllmetry.chat_stream stream history u).span.endCount = 1 ∧
    (Openllmetry.chat_stream stream history u).span.status = SpanStatus.unset ∧
    (Openllmetry.chat_stream stream history u).span.recordedExceptions = 0 ∧
    (Openllmetry.chat_stream stream history u).history
        = history ++ [userMsg u] := by
  rw [Openllmetry.openllmetry_chat_stream_abandoned_eq stream history u pulled h]
  exact ⟨rfl, rfl, rfl, rfl⟩

/-- Claim C9, witness for the amended theorem at a concrete abandonment. -/
theorem C9_witness :
    (Openllmetry.chat_stream (fun _ => StreamTermination.abandonedAfter ["par"])
        [] "hi").span.endCount = 1 ∧
    (Openllmetry.chat_stream (fun _ => StreamTermination.abandonedAfter ["par"])
        [] "hi").span.status = SpanStatus.unset ∧
    (Openllmetry.chat_stream (fun _ => StreamTermination.abandonedAfter ["par"])
        [] "hi").span.recordedExceptions = 0 ∧
    (Openllmetry.chat_stream (fun _ => StreamTermination.abandonedAfter ["par"])
        [] "hi").history = [] ++ [userMsg "hi"] :=
  C9_abandoned_stream_closes_span_once
    (fun _ => StreamTermination.abandonedAfter ["par"]) [] "hi" ["par"] rfl

/-- Claim C10: on every successful non-streamed turn of the langfuse and
opik chatbots, the prompt and completion token counts are extracted from
the backend response with a default of zero when absent, and the total
token count reported in the turn's result and recorded in the total
token-counter increment is exactly their sum. -/
theorem C10_total_tokens_is_sum (model : String)
    (backend : List Message → BackendResult) (d : Nat)
    (history : List Message) (u : String) (resp : OllamaResponse)
    (h : backend (history ++ [userMsg u]) = BackendResult.success resp) :
    (Langfuse.call_ollama_result resp).total_tokens
        = resp.prompt_eval_count.getD 0 + resp.eval_count.getD 0 ∧
    (∃ r, (Langfuse.chat model backend d history u).outcome = PyOutcome.ok r ∧
      r.metadata.prompt_tokens = resp.prompt_eval_count.getD 0 ∧
      r.metadata.completion_tokens = resp.eval_count.getD 0 ∧
      r.metadata.total_tokens
          = r.metadata.prompt_tokens + r.metadata.completion_tokens ∧
      MetricEvent.token model "total" r.metadata.total_tokens
          ∈ (Langfuse.chat model backend d history u).events) ∧
    (∃ r, (Opik.chat model backend d history u).outcome = PyOutcome.ok r ∧
      r.metadata.prompt_tokens = resp.prompt_eval_count.getD 0 ∧
      r.metadata.completion_tokens = resp.eval_count.getD 0 ∧
      r.metadata.total_tokens
          = r.metadata.prompt_tokens + r.metadata.completion_tokens ∧
      MetricEvent.token model "total" r.metadata.total_tokens
          ∈ (Opik.chat model backend d history u).events) := by
  rw [Langfuse.langfuse_chat_success_eq model backend d history u resp h,
    Opik.opik_chat_success_eq model backend d history u resp h]
  refine ⟨rfl, ⟨_, rfl, rfl, rfl, rfl, ?_⟩, ⟨_, rfl, rfl, rfl, rfl, ?_⟩⟩
  · simp
  · simp

/-- Claim C10, witness at a concrete turn whose backend response omits the
completion token count, so that count defaults to zero. -/
theorem C10_witness :
    (Langfuse.call_ollama_result ⟨"hello", some 3, none⟩).total_tokens
        = (some 3).getD 0 + (none : Option Nat).getD 0 ∧
    (∃ r, (Langfuse.chat "m1"
        (fun _ => BackendResult.success ⟨"hello", some 3, none⟩)
        5 [] "hi").outcome = PyOutcome.ok r ∧
      r.metadata.prompt_tokens = (some 3).getD 0 ∧
      r.metadata.completion_tokens = (none : Option Nat).getD 0 ∧
      r.metadata.total_tokens
          = r.metadata.prompt_tokens + r.metadata.completion_tokens ∧
      MetricEvent.token "m1" "total" r.metadata.total_tokens
          ∈ (Langfuse.chat "m1"
              (fun _ => BackendResult.success ⟨"hello", some 3, none⟩)
              5 [] "hi").events) ∧
    (∃ r, (Opik.chat "m1"
        (fun _ => BackendResult.success ⟨"hello", some 3, none⟩)
        5 [] "hi").outcome = PyOutcome.ok r ∧
      r.metadata.prompt_tokens = (some 3).getD 0 ∧
      r.metadata.completion_tokens = (none : Option Nat).getD 0 ∧
      r.metadata.total_tokens
          = r.metadata.prompt_tokens + r.metadata.completion_tokens ∧
      MetricEvent.token "m1" "total" r.metadata.total_tokens
          ∈ (Opik.chat "m1"
              (fun _ => BackendResult.success ⟨"hello", some 3, none⟩)
              5 [] "hi").events) :=
  C10_total_tokens_is_sum "m1"
    (fun _ => BackendResult.success ⟨"hello", some 3, none⟩)
    5 [] "hi" ⟨"hello", some 3, none⟩ rfl

end LLMObs
